import Mathlib

/-!
Verification of the oVirt VM-pool reconciliation module
(`lib/ansible/modules/cloud/ovirt/ovirt_vmpool.py`).

The Python module is shallowly embedded: dictionaries become association
lists over a small `Val` type of Python values, `otypes` SDK classes become
plain Lean structures (the SDK constructors are data containers), raised
exceptions become `Except` errors, and the instance attribute
`self._initialization` (the memo of `get_initialization`) becomes an
explicit `ResolverState` threaded through the functions.  Helpers imported
from `ansible.module_utils.ovirt` (`equal`, `get_link_name`,
`search_by_name`, `convert_to_bytes`, `wait`) are not part of the staged
sources and are modelled from the specification; each carries a doc comment
saying so.
-/

namespace OvirtVmPool

/-- A Python value as it appears in the module's parameter dictionaries.
`null` is Python's `None` (a key can be present with value `None`). -/
inductive Val where
  | null : Val
  | str : String → Val
  | bool : Bool → Val
  | int : Int → Val
deriving DecidableEq, Repr

/-- Python truthiness of a `Val`: `None` and empty strings are falsy. -/
def Val.truthy : Val → Bool
  | .null => false
  | .str s => decide (s ≠ "")
  | .bool b => b
  | .int n => decide (n ≠ 0)

/-- Python `is not None`. -/
def Val.isSet : Val → Bool
  | .null => false
  | _ => true

/-- Python `.lower()` applied to a string value (other values untouched). -/
def Val.lower : Val → Val
  | .str s => .str s.toLower
  | v => v

/-- A Python `dict` as an insertion-ordered association list. -/
abbrev Dict := List (String × Val)

/-- Python `d.get(k)`: the value at `k`, or `None` when the key is absent. -/
def Dict.getPy (d : Dict) (k : String) : Val :=
  match d.find? (fun p => p.1 == k) with
  | some p => p.2
  | none => Val.null

/-- The dictionary after Python `d.pop(k, ...)`: the key is removed. -/
def Dict.popKey (d : Dict) (k : String) : Dict :=
  d.filter (fun p => p.1 != k)

/-! ## The oVirt SDK data types used by the module (data containers). -/

/-- `otypes.Ip`. -/
structure Ip where
  address : Val
  netmask : Val
  gateway : Val
deriving DecidableEq, Repr

/-- `otypes.NicConfiguration`: `boot_protocol` is the lowercased protocol
string when the input value was truthy, `ip` is present only when at least
one of the static-IP triple was set. -/
structure NicConfiguration where
  boot_protocol : Option Val
  name : Val
  on_boot : Val
  ip : Option Ip
deriving DecidableEq, Repr

/-- `otypes.Initialization`: the retained NIC configurations plus the
remaining top-level keyword arguments (`**cloud_init` or `**sysprep`). -/
structure Initialization where
  nic_configurations : Option (List NicConfiguration)
  kwargs : Dict
deriving DecidableEq, Repr

/-- The errors the embedded code can raise. `attributeError` and
`typeError` model the corresponding Python exceptions; `profileNotFound`
models the `Exception("Profile ... was not found in cluster ...")` raised
by `__get_vnic_profile_id` (the spec's `ProfileNotFoundError`);
`timeoutError` models the poller's timeout. -/
inductive OvirtError where
  | attributeError : String → OvirtError
  | typeError : String → OvirtError
  | profileNotFound : Option String → Option String → OvirtError
  | timeoutError : OvirtError
deriving DecidableEq, Repr

/-- The `vm` module parameter: a dictionary whose keys the module reads.
Typed projection of the validated input mapping. -/
structure VmParam where
  comment : Option String := none
  memory : Option String := none
  memory_guaranteed : Option String := none
  memory_max : Option String := none
  sysprep : Option Dict := none
  cloud_init : Option Dict := none
  cloud_init_nics : Option (List Dict) := none
  smartcard_enabled : Option Bool := none
  sso : Option Bool := none
  timezone : Option String := none
deriving DecidableEq, Repr

/-- The per-instance memo `self._initialization`, set to `None` in
`VmPoolsModule.__init__`. -/
structure ResolverState where
  _initialization : Option Initialization
deriving DecidableEq, Repr

/-- The filter of the NIC-configuration list comprehension: the fragment
carries at least one of the five `is not None` checked keys. -/
def nicMeaningful (nic : Dict) : Bool :=
  (nic.getPy "nic_gateway").isSet || (nic.getPy "nic_netmask").isSet ||
  (nic.getPy "nic_ip_address").isSet || (nic.getPy "nic_boot_protocol").isSet ||
  (nic.getPy "nic_on_boot").isSet

/-- One evaluation of the `otypes.NicConfiguration(...)` expression on a
fragment that passed the filter: each consumed key is read and then popped
from the fragment; the mutated fragment is returned alongside. -/
def processNic (nic : Dict) : NicConfiguration × Dict :=
  let bpv := nic.getPy "nic_boot_protocol"
  let bp := if bpv.truthy then some bpv.lower else none
  let nic1 := if bpv.truthy then nic.popKey "nic_boot_protocol" else nic
  let nm := nic1.getPy "nic_name"
  let nic2 := nic1.popKey "nic_name"
  let ob := nic2.getPy "nic_on_boot"
  let nic3 := nic2.popKey "nic_on_boot"
  let ipCond := (nic3.getPy "nic_gateway").isSet || (nic3.getPy "nic_netmask").isSet ||
    (nic3.getPy "nic_ip_address").isSet
  let ip := if ipCond then
      some ⟨nic3.getPy "nic_ip_address", nic3.getPy "nic_netmask", nic3.getPy "nic_gateway"⟩
    else none
  let nic4 := if ipCond then
      ((nic3.popKey "nic_ip_address").popKey "nic_netmask").popKey "nic_gateway"
    else nic3
  (⟨bp, nm, ob, ip⟩, nic4)

/-- The `otypes.Initialization` built in the cloud-init branch from the
fragment list `nics0 ++ [ci]` (the supplied `cloud_init` mapping is
appended as one more fragment): fragments passing the filter each yield one
`NicConfiguration`; the keyword arguments are the `cloud_init` mapping
after the comprehension's pops mutated it (only when it passed the
filter). -/
def cloudInitBranch (nics0 : List Dict) (ci : Dict) : Initialization :=
  let frags := nics0 ++ [ci]
  { nic_configurations :=
      some (frags.filterMap (fun n => if nicMeaningful n then some (processNic n).1 else none))
  , kwargs := if nicMeaningful ci then (processNic ci).2 else ci }

/-- The body of `get_initialization` past the memo check.  With
`cloud_init` supplied the fragment list is non-empty after the append, so
the cloud-init branch is always taken (regardless of `sysprep`).  With
`cloud_init` absent and a non-empty fragment list the branch is still
taken but `otypes.Initialization(..., **cloud_init)` unpacks `None` and
raises a `TypeError` before the memo is assigned.  Otherwise a truthy
`sysprep` mapping is passed verbatim; an empty or absent one leaves the
memo `None`. -/
def compute_initialization (vm : VmParam) : Except OvirtError (Option Initialization × ResolverState) :=
  match vm.cloud_init with
  | some ci =>
      .ok (some (cloudInitBranch (vm.cloud_init_nics.getD []) ci),
           ⟨some (cloudInitBranch (vm.cloud_init_nics.getD []) ci)⟩)
  | none =>
      if (vm.cloud_init_nics.getD []).isEmpty then
        match vm.sysprep with
        | some sp =>
            if sp.isEmpty then .ok (none, ⟨none⟩)
            else .ok (some ⟨none, sp⟩, ⟨some ⟨none, sp⟩⟩)
        | none => .ok (none, ⟨none⟩)
      else .error (OvirtError.typeError "argument after ** must be a mapping, not NoneType")

/-- `VmPoolsModule.get_initialization`: returns the memoized value when
`self._initialization` is set, else computes (and possibly memoizes) it. -/
def get_initialization (st : ResolverState) (vm : VmParam) :
    Except OvirtError (Option Initialization × ResolverState) :=
  match st._initialization with
  | some i => .ok (some i, st)
  | none => compute_initialization vm

/-! ## The entity builder. -/

/-- Truthiness of an optional string parameter (Python `if params[k]`). -/
def truthyStr : Option String → Bool
  | some s => decide (s ≠ "")
  | none => false

/-- Modelled from the spec: `convert_to_bytes` from
`ansible.module_utils.ovirt` (not among the staged sources) normalizes a
human-readable size string such as `"1GiB"` to a byte count. -/
def convert_to_bytes : Option String → Option Int :=
  fun s? => s?.map (fun s =>
    if s.endsWith "KiB" then (s.dropRight 3).toInt?.getD 0 * 1024
    else if s.endsWith "MiB" then (s.dropRight 3).toInt?.getD 0 * 1024 ^ 2
    else if s.endsWith "GiB" then (s.dropRight 3).toInt?.getD 0 * 1024 ^ 3
    else if s.endsWith "TiB" then (s.dropRight 3).toInt?.getD 0 * 1024 ^ 4
    else s.toInt?.getD 0)

/-- `otypes.MemoryPolicy`. -/
structure MemoryPolicy where
  guaranteed : Option Int
  max : Option Int
deriving DecidableEq, Repr

/-- `otypes.Vm` as `build_vm` constructs it: `display` holds the
`smartcard_enabled` flag, `sso` the authentication-method list. -/
structure Vm where
  comment : Option String
  memory : Option Int
  memory_policy : Option MemoryPolicy
  initialization : Option Initialization
  display : Option Bool
  sso : Option (List String)
  time_zone : Option String
deriving DecidableEq, Repr

/-- `otypes.VmPool` as `build_entity` constructs it: `cluster` and
`template` hold the wrapped names, `type` the pool type string. -/
structure VmPool where
  id : Option String
  name : Option String
  description : Option String
  comment : Option String
  cluster : Option String
  template : Option String
  max_user_vms : Option Int
  prestarted_vms : Option Int
  size : Option Int
  type : Option String
  vm : Vm
deriving DecidableEq, Repr

/-- `VmPoolsModule.build_vm`: reads fields from the `vm` mapping
unconditionally — when the `vm` parameter is `None`, the very first
`vm.get('comment')` raises an `AttributeError`. -/
def build_vm (st : ResolverState) (vmParam : Option VmParam) :
    Except OvirtError (Vm × ResolverState) :=
  match vmParam with
  | none => .error (OvirtError.attributeError "NoneType object has no attribute get")
  | some v => do
      let (init, st') ← get_initialization st v
      .ok ( { comment := v.comment
            , memory := if truthyStr v.memory then convert_to_bytes v.memory else none
            , memory_policy :=
                if truthyStr v.memory_guaranteed || truthyStr v.memory_max then
                  some ⟨convert_to_bytes v.memory_guaranteed, convert_to_bytes v.memory_max⟩
                else none
            , initialization := init
            , display := v.smartcard_enabled
            , sso := v.sso.map (fun b => if b then ["guest_agent"] else [])
            , time_zone := if truthyStr v.timezone then v.timezone else none }
          , st')

/-- The validated module parameters (`argument_spec` of `main`). -/
structure ModuleParams where
  id : Option String := none
  name : Option String := none
  state : String := "present"
  template : Option String := none
  cluster : Option String := none
  description : Option String := none
  vm : Option VmParam := none
  comment : Option String := none
  vm_per_user : Option Int := none
  prestarted : Option Int := none
  vm_count : Option Int := none
  type : Option String := none
deriving DecidableEq, Repr

/-- `VmPoolsModule.build_entity`: assembles the desired `otypes.VmPool`,
calling `build_vm` on the `vm` parameter unconditionally. -/
def build_entity (p : ModuleParams) (st : ResolverState) :
    Except OvirtError (VmPool × ResolverState) := do
  let (v, st') ← build_vm st p.vm
  .ok ( { id := p.id
        , name := p.name
        , description := p.description
        , comment := p.comment
        , cluster := if truthyStr p.cluster then p.cluster else none
        , template := if truthyStr p.template then p.template else none
        , max_user_vms := p.vm_per_user
        , prestarted_vms := p.prestarted
        , size := p.vm_count
        , type := if truthyStr p.type then p.type else none
        , vm := v }
      , st')

/-! ## The update check. -/

/-- The remote VM-pool entity as `update_check` reads it; `cluster` is a
link carrying the remote cluster's id. -/
structure VmPoolEntity where
  id : Option String := none
  name : Option String := none
  cluster : Option String := none
  description : Option String := none
  comment : Option String := none
  max_user_vms : Option Int := none
  prestarted_vms : Option Int := none
  size : Option Int := none
deriving DecidableEq, Repr

/-- Modelled from the spec: `equal` from `ansible.module_utils.ovirt` (not
among the staged sources): an unset desired field is treated as equal to
anything (the comparison is skipped); a set field must equal the actual
value. -/
def equal {α : Type} [DecidableEq α] (param value : Option α) : Bool :=
  match param with
  | none => true
  | some p => decide (some p = value)

/-- Modelled from the spec: `get_link_name` from
`ansible.module_utils.ovirt` (not among the staged sources): follow an
entity link through the connection and return the linked entity's name;
a `None` link resolves to `None`.  `conn` maps a link id to the linked
entity's name. -/
def get_link_name (conn : String → Option String) (link : Option String) : Option String :=
  link.bind conn

/-- `VmPoolsModule.update_check`: conjunction of `equal` checks over the
seven compared fields, the cluster compared through `get_link_name`. -/
def update_check (conn : String → Option String) (p : ModuleParams) (e : VmPoolEntity) : Bool :=
  equal p.name e.name &&
  equal p.cluster (get_link_name conn e.cluster) &&
  equal p.description e.description &&
  equal p.comment e.comment &&
  equal p.vm_per_user e.max_user_vms &&
  equal p.prestarted e.prestarted_vms &&
  equal p.vm_count e.size

/-! ## VNIC profile resolution. -/

/-- A VNIC profile as listed by the `vnic_profiles` service: `network` is
the id of the network the profile belongs to. -/
structure VnicProfile where
  id : String
  name : Option String
  network : String
deriving DecidableEq, Repr

/-- A cluster as listed by the `clusters` service: `networks` are the ids
of the networks attached to the cluster (`follow_link(cluster.networks)`). -/
structure Cluster where
  name : Option String
  networks : List String
deriving DecidableEq, Repr

/-- The remote system state the resolver and attacher read. -/
structure SystemEnv where
  profiles : List VnicProfile
  clusters : List Cluster
deriving Repr

/-- Modelled from the spec: `search_by_name` from
`ansible.module_utils.ovirt` (not among the staged sources): list the
service's entities and return the first whose name equals the requested
name, or `None`. -/
def search_by_name {α : Type} (entities : List α) (nameOf : α → Option String)
    (name : Option String) : Option α :=
  entities.find? (fun e => nameOf e == name)

/-- `VmPoolsModule.__get_vnic_profile_id`: filter all profiles by the
requested name, then return the id of the first whose network is attached
to the named cluster; raise when none qualifies.  When the cluster name
does not resolve, `cluster.networks` is an attribute access on `None` and
raises an `AttributeError` instead. -/
def get_vnic_profile_id (env : SystemEnv) (clusterName profileName : Option String) :
    Except OvirtError String :=
  match search_by_name env.clusters Cluster.name clusterName with
  | none => .error (OvirtError.attributeError "NoneType object has no attribute networks")
  | some cluster =>
      let profiles := env.profiles.filter (fun p => p.name == profileName)
      let cluster_networks := cluster.networks
      match profiles.find? (fun p => cluster_networks.contains p.network) with
      | some p => .ok p.id
      | none => .error (OvirtError.profileNotFound profileName clusterName)

/-! ## The NIC attacher. -/

/-- A declared NIC of the `vm` parameter's `nics` list. -/
structure NicParam where
  name : Option String := none
  interface : Option String := none
  profile_name : Option String := none
  mac_address : Option String := none
deriving DecidableEq, Repr

/-- `otypes.Nic` as `__attach_nics` submits it. -/
structure Nic where
  name : Option String
  interface : String
  vnic_profile : Option String
  mac : Option String
deriving DecidableEq, Repr

/-- The NICs currently on one VM together with the module's `changed`
flag. -/
structure AttachState where
  nics : List Nic
  changed : Bool
deriving DecidableEq, Repr

/-- The profile argument of the submitted NIC: resolved only when the
declared `profile_name` is truthy (and resolution can raise). -/
def resolveProfileFor (env : SystemEnv) (clusterName : Option String) (spec : NicParam) :
    Except OvirtError (Option String) :=
  if truthyStr spec.profile_name then
    (get_vnic_profile_id env clusterName spec.profile_name).map some
  else .ok none

/-- The `otypes.Nic` submitted for a declared NIC. -/
def mkNic (spec : NicParam) (pid : Option String) : Nic :=
  { name := spec.name
  , interface := spec.interface.getD "virtio"
  , vnic_profile := pid
  , mac := if truthyStr spec.mac_address then spec.mac_address else none }

/-- Whether a NIC with the declared name already exists on the VM
(`search_by_name(nics_service, nic.get('name'))`). -/
def nicExists (nics : List Nic) (spec : NicParam) : Bool :=
  (search_by_name nics Nic.name spec.name).isSome

/-- One iteration of the `__attach_nics` loop: skip when a NIC of the same
name exists; in check mode only mark `changed`; otherwise resolve the
profile, submit the creation request and mark `changed`. -/
def attachOne (check : Bool) (env : SystemEnv) (clusterName : Option String)
    (st : AttachState) (spec : NicParam) : Except OvirtError AttachState :=
  if nicExists st.nics spec then .ok st
  else if check then .ok { st with changed := true }
  else do
    let pid ← resolveProfileFor env clusterName spec
    .ok ⟨st.nics ++ [mkNic spec pid], true⟩

/-- `VmPoolsModule.__attach_nics`: the loop over the declared NICs. -/
def attach_nics (check : Bool) (env : SystemEnv) (clusterName : Option String)
    (st : AttachState) (specs : List NicParam) : Except OvirtError AttachState :=
  specs.foldlM (attachOne check env clusterName) st

/-! ## The convergence wait of `main`. -/

/-- `otypes.VmStatus` (the constructors the module compares against plus
representatives of the others). -/
inductive VmStatus where
  | down | up | powering_up | wait_for_launch | image_locked | migrating
deriving DecidableEq, Repr

/-- A VM as the `vms` service lists it: `vm_pool` names the pool the VM
belongs to (the `pool=<name>` search key). -/
structure PollVm where
  id : String
  status : VmStatus
  vm_pool : Option String
deriving DecidableEq, Repr

/-- The `condition` lambda of `main`:
`vm.status in [otypes.VmStatus.DOWN, otypes.VmStatus.UP]`. -/
def pool_vm_ready (v : PollVm) : Bool :=
  decide (v.status = VmStatus.down) || decide (v.status = VmStatus.up)

/-- Modelled from the spec: the `pool=<name>` VM search of
`vms_service.list`: the VMs that are members of the named pool at that
moment. -/
def pool_members (vms : List PollVm) (name : String) : List PollVm :=
  vms.filter (fun v => v.vm_pool == some name)

/-- Modelled from the spec: `wait` from `ansible.module_utils.ovirt` (not
among the staged sources): repeatedly poll the VM until the condition
holds or the timeout elapses, raising a timeout error on expiry.  `trace t`
is the VM as observed at poll step `t`; polling is bounded by `timeout`
steps. -/
def wait (trace : Nat → PollVm) (condition : PollVm → Bool) (timeout : Nat) :
    Except OvirtError Unit :=
  if (List.range (timeout + 1)).any (fun t => condition (trace t)) then .ok ()
  else .error OvirtError.timeoutError

/-- The post-create wait block of `main`: only under `state == 'present'`
and the `wait` flag, loop over the pool's member VMs and `wait` on each.
`trace id t` is the VM `id` as observed at poll step `t`. -/
def wait_phase (state : String) (waitFlag : Bool) (vms : List PollVm) (name : String)
    (trace : String → Nat → PollVm) (timeout : Nat) : Except OvirtError Unit :=
  if state = "present" then
    if waitFlag then
      (pool_members vms name).foldlM (fun _ v => wait (trace v.id) pool_vm_ready timeout) ()
    else .ok ()
  else .ok ()

/-! ## The reconciliation entry point (modelled from the spec). -/

/-- Modelled from the spec: the lookup step of `BaseModule.create`
(`ansible.module_utils.ovirt`, not among the staged sources): find the
remote pool by id when given, else by name. -/
def find_pool (remote : List VmPoolEntity) (p : ModuleParams) : Option VmPoolEntity :=
  match p.id with
  | some i => remote.find? (fun e => e.id == some i)
  | none => remote.find? (fun e => e.name == p.name)

/-- Modelled from the spec: `ensurePresent` (`BaseModule.create` of
`ansible.module_utils.ovirt`, not among the staged sources): look up by
id/name; if absent, build the desired entity and create it
(`changed = true`); if present and `update_check` passes, no-op; else
issue a full update with the freshly built entity.  The result carries the
pre-existing entity (when found), the submitted entity (when built) and
the changed flag. -/
def ensurePresent (p : ModuleParams) (remote : List VmPoolEntity)
    (conn : String → Option String) :
    Except OvirtError (Option VmPoolEntity × Option VmPool × Bool) :=
  match find_pool remote p with
  | none =>
      match build_entity p ⟨none⟩ with
      | .error e => .error e
      | .ok (ent, _) => .ok (none, some ent, true)
  | some e =>
      if update_check conn p e then .ok (some e, none, false)
      else
        match build_entity p ⟨none⟩ with
        | .error err => .error err
        | .ok (ent, _) => .ok (some e, some ent, true)

/-! ## Theorems. -/

/-- A set desired field must equal the actual field; an unset one matches
anything. -/
def fieldMatches {α : Type} (desired actual : Option α) : Prop :=
  ∀ x, desired = some x → actual = some x

theorem equal_eq_true_iff {α : Type} [DecidableEq α] (d a : Option α) :
    equal d a = true ↔ fieldMatches d a := by
  cases d with
  | none =>
      simp only [equal, fieldMatches]
      constructor
      · intro _ x hx
        cases hx
      · intro _
        trivial
  | some p =>
      simp only [equal, decide_eq_true_eq, fieldMatches]
      constructor
      · intro h x hx
        obtain rfl : p = x := Option.some.inj hx
        exact h.symm
      · intro h
        exact (h p rfl).symm

/-- C1: `update_check` returns true if and only if every one of the seven
compared fields that is set in the desired spec equals the corresponding
field of the actual entity (the cluster through the resolved link name);
an unset desired field is skipped and never causes divergence by itself. -/
theorem update_check_iff_all_set_fields_match (conn : String → Option String)
    (p : ModuleParams) (e : VmPoolEntity) :
    update_check conn p e = true ↔
      (fieldMatches p.name e.name ∧
       fieldMatches p.cluster (get_link_name conn e.cluster) ∧
       fieldMatches p.description e.description ∧
       fieldMatches p.comment e.comment ∧
       fieldMatches p.vm_per_user e.max_user_vms ∧
       fieldMatches p.prestarted e.prestarted_vms ∧
       fieldMatches p.vm_count e.size) := by
  simp only [update_check, Bool.and_eq_true, equal_eq_true_iff]
  tauto

/-- C9: with the `vm` parameter unset, building the desired pool entity
raises (`build_vm` reads the `vm` mapping unconditionally), so any
`state=present` run that must create or update the pool fails. -/
theorem build_entity_fails_without_vm (p : ModuleParams) (st : ResolverState)
    (h : p.vm = none) :
    build_entity p st =
      .error (OvirtError.attributeError "NoneType object has no attribute get") ∧
    (∀ remote conn, find_pool remote p = none →
      ensurePresent p remote conn =
        .error (OvirtError.attributeError "NoneType object has no attribute get")) ∧
    (∀ remote conn e, find_pool remote p = some e → update_check conn p e = false →
      ensurePresent p remote conn =
        .error (OvirtError.attributeError "NoneType object has no attribute get")) := by
  have key : ∀ st' : ResolverState, build_entity p st' =
      .error (OvirtError.attributeError "NoneType object has no attribute get") := by
    intro st'
    unfold build_entity build_vm
    rw [h]
    rfl
  refine ⟨key st, ?_, ?_⟩
  · intro remote conn hf
    unfold ensurePresent
    rw [hf, key]
  · intro remote conn e hf hu
    unfold ensurePresent
    rw [hf]
    simp [hu, key]

/-- Witness for C9 at a concrete parameter set with no `vm` block. -/
theorem build_entity_fails_without_vm_witness :
    build_entity { name := some "pool1" } ⟨none⟩ =
      .error (OvirtError.attributeError "NoneType object has no attribute get") :=
  (build_entity_fails_without_vm { name := some "pool1" } ⟨none⟩ rfl).1

/-- The module parameters of end-to-end scenario A of the spec (the
module's own EXAMPLES block shows the same invocation, with no `vm`
block). -/
def scenario_a_params : ModuleParams :=
  { name := some "pool1", cluster := some "c1", template := some "rhel7"
  , vm_count := some 2, prestarted := some 2, vm_per_user := some 1 }

/-- C2: scenario A — pool absent remotely, no `vm` block supplied.  The
claim (and the module's EXAMPLES) expect a successful creation with
`changed=true` and `size=2, prestartedVms=2, maxUserVms=1`; the code
instead raises an `AttributeError` inside `build_vm` because the `vm`
parameter is `None`. -/
theorem ensure_present_scenario_a_crashes :
    ensurePresent scenario_a_params [] (fun _ => none) =
      .error (OvirtError.attributeError "NoneType object has no attribute get") := rfl

/-- C10: with an empty `cloud_init` mapping and no NIC fragments the
cloud-init branch is still taken (any supplied `sysprep` is ignored) and
the result's NIC-configuration list is the empty list, not `None`: the
empty mapping is appended as a fragment, makes the fragment list
non-empty, and is then dropped by the drop rule. -/
theorem empty_cloud_init_yields_empty_nic_list (vm : VmParam)
    (h1 : vm.cloud_init = some []) (h2 : vm.cloud_init_nics.getD [] = []) :
    get_initialization ⟨none⟩ vm =
      .ok (some ⟨some [], []⟩, ⟨some ⟨some [], []⟩⟩) := by
  unfold get_initialization compute_initialization
  rw [h1, h2]
  rfl

/-- Witness for C10: empty `cloud_init`, empty NIC list, a sysprep mapping
supplied and ignored. -/
theorem empty_cloud_init_yields_empty_nic_list_witness :
    get_initialization ⟨none⟩
      { cloud_init := some [], cloud_init_nics := some []
      , sysprep := some [("hostname", Val.str "w")] } =
      .ok (some ⟨some [], []⟩, ⟨some ⟨some [], []⟩⟩) :=
  empty_cloud_init_yields_empty_nic_list
    { cloud_init := some [], cloud_init_nics := some []
    , sysprep := some [("hostname", Val.str "w")] } rfl rfl

/-- C3 counterexample: per-NIC cloud-init fragments supplied together with
a sysprep mapping but without a `cloud_init` mapping — the cloud-init
branch unpacks `**None` and raises a `TypeError`, contradicting "no error
is raised". -/
theorem sysprep_with_nic_fragments_only_raises :
    get_initialization ⟨none⟩
      { cloud_init_nics := some [[("nic_ip_address", Val.str "10.0.0.1")]]
      , sysprep := some [("hostname", Val.str "w")] } =
      .error (OvirtError.typeError "argument after ** must be a mapping, not NoneType") := rfl

/-- C3 (amended): whenever a `cloud_init` mapping is supplied, the
resolved `InitializationSpec` is built exclusively from the cloud-init
data — the result does not depend on the sysprep mapping — and no error
is raised. -/
theorem cloud_init_takes_precedence_over_sysprep (vm : VmParam) (ci : Dict)
    (h : vm.cloud_init = some ci) :
    (∃ init, get_initialization ⟨none⟩ vm = .ok (some init, ⟨some init⟩)) ∧
    get_initialization ⟨none⟩ vm =
      get_initialization ⟨none⟩ { vm with sysprep := none } := by
  unfold get_initialization compute_initialization
  simp only [h]
  exact ⟨⟨cloudInitBranch (vm.cloud_init_nics.getD []) ci, rfl⟩, trivial⟩

/-- Witness for C3 at a concrete input supplying both mappings. -/
theorem cloud_init_takes_precedence_over_sysprep_witness :
    (∃ init, get_initialization ⟨none⟩
        { cloud_init := some [("host_name", Val.str "h")]
        , sysprep := some [("hostname", Val.str "w")] } = .ok (some init, ⟨some init⟩)) ∧
    get_initialization ⟨none⟩
        { cloud_init := some [("host_name", Val.str "h")]
        , sysprep := some [("hostname", Val.str "w")] } =
      get_initialization ⟨none⟩ { cloud_init := some [("host_name", Val.str "h")] } :=
  cloud_init_takes_precedence_over_sysprep
    { cloud_init := some [("host_name", Val.str "h")]
    , sysprep := some [("hostname", Val.str "w")] } [("host_name", Val.str "h")] rfl

theorem length_filterMap_ite {α β : Type} (f : α → β) (p : α → Bool) (l : List α) :
    (l.filterMap (fun a => if p a then some (f a) else none)).length = l.countP p := by
  induction l with
  | nil => rfl
  | cons a l ih =>
      by_cases h : p a <;>
        simp [List.filterMap_cons, List.countP_cons, h, ih]

theorem countP_add_countP_not {α : Type} (p : α → Bool) (l : List α) :
    l.countP p + l.countP (fun a => !(p a)) = l.length := by
  induction l with
  | nil => rfl
  | cons a l ih =>
      by_cases h : p a <;> simp [List.countP_cons, h] <;> omega

/-- C4 counterexample: one fragment with none of the five meaningful keys
and no `cloud_init` mapping (N = 1, K = 1) — the claim expects a resolved
`InitializationSpec` with an empty NIC list, but the resolver raises a
`TypeError`. -/
theorem nic_fragments_without_cloud_init_raise :
    get_initialization ⟨none⟩ { cloud_init_nics := some [[("nic_name", Val.str "eth0")]] } =
      .error (OvirtError.typeError "argument after ** must be a mapping, not NoneType") := rfl

/-- C4 (amended): when a `cloud_init` mapping is supplied (it is appended
as one more NIC fragment and counted among the N fragments), the resolved
NIC-configuration list has exactly N−K entries: each of the N fragments
with at least one of the five optional sub-fields set yields one
`NicConfiguration` and each of the K fragments with none of them set
contributes nothing. -/
theorem nic_config_count_is_meaningful_fragments (vm : VmParam) (ci : Dict)
    (h : vm.cloud_init = some ci) :
    ∃ init st, get_initialization ⟨none⟩ vm = .ok (some init, st) ∧
      ∃ l, init.nic_configurations = some l ∧
        l.length = (vm.cloud_init_nics.getD [] ++ [ci]).countP nicMeaningful ∧
        l.length + (vm.cloud_init_nics.getD [] ++ [ci]).countP (fun n => !(nicMeaningful n)) =
          (vm.cloud_init_nics.getD [] ++ [ci]).length := by
  unfold get_initialization compute_initialization
  simp only [h]
  refine ⟨cloudInitBranch (vm.cloud_init_nics.getD []) ci, _, rfl, ?_⟩
  refine ⟨_, rfl, ?_, ?_⟩
  · exact length_filterMap_ite _ nicMeaningful _
  · rw [length_filterMap_ite _ nicMeaningful _]
    exact countP_add_countP_not nicMeaningful _

/-- Witness for C4: `cloud_init` plus two fragments, one meaningful and
one not (N = 3 with the appended mapping, K = 2), yielding one
`NicConfiguration`. -/
theorem nic_config_count_witness :
    ∃ init st, get_initialization ⟨none⟩
        { cloud_init := some [("host_name", Val.str "h")]
        , cloud_init_nics := some
            [[("nic_ip_address", Val.str "10.0.0.1"), ("nic_name", Val.str "eth0")]
            , [("nic_name", Val.str "eth1")]] } = .ok (some init, st) ∧
      ∃ l, init.nic_configurations = some l ∧
        l.length = (([[("nic_ip_address", Val.str "10.0.0.1"), ("nic_name", Val.str "eth0")]
            , [("nic_name", Val.str "eth1")]] : List Dict) ++
            [[("host_name", Val.str "h")]]).countP nicMeaningful ∧
        l.length + (([[("nic_ip_address", Val.str "10.0.0.1"), ("nic_name", Val.str "eth0")]
            , [("nic_name", Val.str "eth1")]] : List Dict) ++
            [[("host_name", Val.str "h")]]).countP (fun n => !(nicMeaningful n)) =
          (([[("nic_ip_address", Val.str "10.0.0.1"), ("nic_name", Val.str "eth0")]
            , [("nic_name", Val.str "eth1")]] : List Dict) ++
            [[("host_name", Val.str "h")]]).length :=
  nic_config_count_is_meaningful_fragments
    { cloud_init := some [("host_name", Val.str "h")]
    , cloud_init_nics := some
        [[("nic_ip_address", Val.str "10.0.0.1"), ("nic_name", Val.str "eth0")]
        , [("nic_name", Val.str "eth1")]] } [("host_name", Val.str "h")] rfl

/-- C7 counterexample: on a fresh resolver the first call (no cloud-init,
no sysprep) returns `None` and memoizes nothing; a second call on the
resulting state with a sysprep argument returns a non-null
`InitializationSpec`, not the first call's result. -/
theorem second_resolver_call_differs :
    get_initialization ⟨none⟩ {} = .ok (none, ⟨none⟩) ∧
    get_initialization ⟨none⟩ { sysprep := some [("k", Val.str "v")] } =
      .ok (some ⟨none, [("k", Val.str "v")]⟩, ⟨some ⟨none, [("k", Val.str "v")]⟩⟩) ∧
    some (⟨none, [("k", Val.str "v")]⟩ : Initialization) ≠ none := by
  refine ⟨rfl, rfl, ?_⟩
  simp

theorem compute_initialization_memo (vm : VmParam) (i : Initialization)
    (st' : ResolverState) (h : compute_initialization vm = .ok (some i, st')) :
    st' = ⟨some i⟩ := by
  unfold compute_initialization at h
  split at h
  · obtain ⟨h1, h2⟩ := Prod.mk.injEq .. ▸ Except.ok.inj h
    rw [← h2, Option.some.inj h1]
  · split at h
    · split at h
      · split at h
        · exact absurd (Prod.mk.injEq .. ▸ Except.ok.inj h).1 (by simp)
        · obtain ⟨h1, h2⟩ := Prod.mk.injEq .. ▸ Except.ok.inj h
          rw [← h2, Option.some.inj h1]
      · exact absurd (Prod.mk.injEq .. ▸ Except.ok.inj h).1 (by simp)
    · cases h

/-- C7 (amended): a non-null result of the initialization resolver is
memoized — with the memo set every call returns it unchanged, and after a
first call that returned a non-null `InitializationSpec` a second call
with any (possibly different) vm-template argument returns the first
call's result.  (A first call returning `None` memoizes nothing, as the
counterexample shows.) -/
theorem initialization_memoized_when_nonnull :
    (∀ (st : ResolverState) (i : Initialization) (vm : VmParam),
       st._initialization = some i → get_initialization st vm = .ok (some i, st)) ∧
    (∀ (vm1 vm2 : VmParam) (st' : ResolverState) (i : Initialization),
       get_initialization ⟨none⟩ vm1 = .ok (some i, st') →
       get_initialization st' vm2 = .ok (some i, st')) := by
  have base : ∀ (st : ResolverState) (i : Initialization) (vm : VmParam),
      st._initialization = some i → get_initialization st vm = .ok (some i, st) := by
    intro st i vm h
    unfold get_initialization
    rw [h]
  refine ⟨base, ?_⟩
  intro vm1 vm2 st' i h
  have hc : compute_initialization vm1 = .ok (some i, st') := h
  have hst : st' = ⟨some i⟩ := compute_initialization_memo vm1 i st' hc
  exact base st' i vm2 (by rw [hst])

/-- Witness for C7: with the memo holding a sysprep-built spec, a second
call with a different cloud-init argument still returns the first
result. -/
theorem initialization_memoized_witness :
    get_initialization ⟨some ⟨none, [("k", Val.str "v")]⟩⟩
        { cloud_init := some [("x", Val.str "y")] } =
      .ok (some ⟨none, [("k", Val.str "v")]⟩, ⟨some ⟨none, [("k", Val.str "v")]⟩⟩) :=
  initialization_memoized_when_nonnull.2 { sysprep := some [("k", Val.str "v")] }
    { cloud_init := some [("x", Val.str "y")] } ⟨some ⟨none, [("k", Val.str "v")]⟩⟩
    ⟨none, [("k", Val.str "v")]⟩ rfl

theorem find?_filter_eq {α : Type} (l : List α) (q p : α → Bool) :
    (l.filter q).find? p = l.find? (fun a => q a && p a) := by
  induction l with
  | nil => rfl
  | cons a l ih =>
      by_cases hq : q a
      · by_cases hp : p a <;>
          simp [List.filter_cons, List.find?_cons, hq, hp, ih]
      · simp [List.filter_cons, List.find?_cons, hq, ih]

/-- C6 counterexample: when the named cluster does not exist, no profile
of the requested name belongs to any network attached to it, yet
resolution fails with an attribute error on the missing cluster, not with
`ProfileNotFoundError` as the claim requires. -/
theorem vnic_profile_missing_cluster_error :
    get_vnic_profile_id ⟨[], []⟩ (some "c1") (some "p1") =
      .error (OvirtError.attributeError "NoneType object has no attribute networks") ∧
    OvirtError.attributeError "NoneType object has no attribute networks" ≠
      OvirtError.profileNotFound (some "p1") (some "c1") := by
  exact ⟨rfl, by simp⟩

/-- C6 (amended): provided the named cluster resolves, profile resolution
returns the id of the first listed profile whose name matches and whose
network is attached to the cluster, and it fails with
`ProfileNotFoundError` exactly when no profile of that name belongs to a
network attached to the cluster. -/
theorem vnic_profile_first_match_and_failure (env : SystemEnv) (cn pn : Option String)
    (c : Cluster) (h : search_by_name env.clusters Cluster.name cn = some c) :
    (∀ p, env.profiles.find?
        (fun q => (q.name == pn) && c.networks.contains q.network) = some p →
      get_vnic_profile_id env cn pn = .ok p.id) ∧
    (get_vnic_profile_id env cn pn = .error (OvirtError.profileNotFound pn cn) ↔
      ∀ q ∈ env.profiles, ¬(q.name = pn ∧ q.network ∈ c.networks)) := by
  unfold get_vnic_profile_id
  simp only [h]
  constructor
  · intro p hp
    rw [find?_filter_eq, hp]
  · rw [find?_filter_eq]
    cases hf : env.profiles.find? (fun q => (q.name == pn) && c.networks.contains q.network) with
    | some p =>
        constructor
        · intro hbad
          cases hbad
        · intro hnone
          have hpred := List.find?_some hf
          have hmem := List.mem_of_find?_eq_some hf
          simp only [Bool.and_eq_true, beq_iff_eq, List.elem_iff] at hpred
          exact absurd ⟨hpred.1, hpred.2⟩ (hnone p hmem)
    | none =>
        constructor
        · intro _ q hq hpred
          have := List.find?_eq_none.mp hf q hq
          simp only [Bool.and_eq_true, beq_iff_eq, List.elem_iff] at this
          exact this ⟨hpred.1, hpred.2⟩
        · intro _
          rfl

/-- Witness for C6: two profiles share the requested name; the first lies
on a network outside the cluster and is skipped, the second qualifies and
its id is returned. -/
theorem vnic_profile_first_match_witness :
    get_vnic_profile_id
        ⟨[⟨"id1", some "p1", "n1"⟩, ⟨"id2", some "p1", "n2"⟩], [⟨some "cl", ["n2"]⟩]⟩
        (some "cl") (some "p1") = .ok "id2" :=
  (vnic_profile_first_match_and_failure
      ⟨[⟨"id1", some "p1", "n1"⟩, ⟨"id2", some "p1", "n2"⟩], [⟨some "cl", ["n2"]⟩]⟩
      (some "cl") (some "p1") ⟨some "cl", ["n2"]⟩ rfl).1
    ⟨"id2", some "p1", "n2"⟩ rfl

theorem find?_append_of_none {α : Type} {l1 : List α} (l2 : List α) {p : α → Bool}
    (h : l1.find? p = none) : (l1 ++ l2).find? p = l2.find? p := by
  induction l1 with
  | nil => rfl
  | cons a l ih =>
      by_cases hp : p a
      · rw [List.find?_cons_of_pos _ hp] at h
        cases h
      · rw [List.find?_cons_of_neg _ hp] at h
        simpa [List.cons_append, List.find?_cons_of_neg _ hp] using ih h

theorem find?_append_of_some {α : Type} {l1 : List α} (l2 : List α) {p : α → Bool} {x : α}
    (h : l1.find? p = some x) : (l1 ++ l2).find? p = some x := by
  induction l1 with
  | nil => cases h
  | cons a l ih =>
      by_cases hp : p a
      · rw [List.find?_cons_of_pos _ hp] at h
        simpa [List.cons_append, List.find?_cons_of_pos _ hp] using h
      · rw [List.find?_cons_of_neg _ hp] at h
        simpa [List.cons_append, List.find?_cons_of_neg _ hp] using ih h

theorem nicExists_append {nics : List Nic} {spec : NicParam} (l : List Nic)
    (h : nicExists nics spec = true) : nicExists (nics ++ l) spec = true := by
  unfold nicExists search_by_name at h ⊢
  cases hf : nics.find? (fun e => Nic.name e == spec.name) with
  | none => rw [hf] at h; cases h
  | some x => rw [find?_append_of_some l hf]; rfl

theorem attachOne_found (check : Bool) (env : SystemEnv) (cn : Option String)
    (st : AttachState) (spec : NicParam) (h : nicExists st.nics spec = true) :
    attachOne check env cn st spec = .ok st := by
  unfold attachOne
  rw [if_pos h]

theorem attachOne_check_mode (env : SystemEnv) (cn : Option String)
    (st : AttachState) (spec : NicParam) (h : nicExists st.nics spec = false) :
    attachOne true env cn st spec = .ok ⟨st.nics, true⟩ := by
  unfold attachOne
  rw [if_neg (by simp [h]), if_pos rfl]

theorem attachOne_add (env : SystemEnv) (cn : Option String)
    (st : AttachState) (spec : NicParam) (pid : Option String)
    (h : nicExists st.nics spec = false)
    (hr : resolveProfileFor env cn spec = .ok pid) :
    attachOne false env cn st spec = .ok ⟨st.nics ++ [mkNic spec pid], true⟩ := by
  unfold attachOne
  rw [if_neg (by simp [h]), if_neg (by simp), hr]
  rfl

theorem attachOne_resolve_error (env : SystemEnv) (cn : Option String)
    (st : AttachState) (spec : NicParam) (e : OvirtError)
    (h : nicExists st.nics spec = false)
    (hr : resolveProfileFor env cn spec = .error e) :
    attachOne false env cn st spec = .error e := by
  unfold attachOne
  rw [if_neg (by simp [h]), if_neg (by simp), hr]
  rfl

theorem attachOne_nics_grow {check : Bool} {env : SystemEnv} {cn : Option String}
    {st : AttachState} {spec : NicParam} {st' : AttachState}
    (h : attachOne check env cn st spec = .ok st') : ∃ l, st'.nics = st.nics ++ l := by
  cases hex : nicExists st.nics spec with
  | true =>
      rw [attachOne_found check env cn st spec hex] at h
      exact ⟨[], by simp [← Except.ok.inj h]⟩
  | false =>
      cases check with
      | true =>
          rw [attachOne_check_mode env cn st spec hex] at h
          exact ⟨[], by simp [← Except.ok.inj h]⟩
      | false =>
          cases hr : resolveProfileFor env cn spec with
          | error e => rw [attachOne_resolve_error env cn st spec e hex hr] at h; cases h
          | ok pid =>
              rw [attachOne_add env cn st spec pid hex hr] at h
              exact ⟨[mkNic spec pid], by simp [← Except.ok.inj h]⟩

theorem attachOne_makes_exist {env : SystemEnv} {cn : Option String}
    {st : AttachState} {spec : NicParam} {st' : AttachState}
    (h : attachOne false env cn st spec = .ok st') : nicExists st'.nics spec = true := by
  cases hex : nicExists st.nics spec with
  | true =>
      rw [attachOne_found false env cn st spec hex] at h
      rw [← Except.ok.inj h]
      exact hex
  | false =>
      cases hr : resolveProfileFor env cn spec with
      | error e => rw [attachOne_resolve_error env cn st spec e hex hr] at h; cases h
      | ok pid =>
          rw [attachOne_add env cn st spec pid hex hr] at h
          rw [← Except.ok.inj h]
          show nicExists (st.nics ++ [mkNic spec pid]) spec = true
          unfold nicExists search_by_name at hex ⊢
          have hn : st.nics.find? (fun e => Nic.name e == spec.name) = none := by
            cases hf : st.nics.find? (fun e => Nic.name e == spec.name) with
            | none => rfl
            | some x => rw [hf] at hex; cases hex
          rw [find?_append_of_none _ hn]
          simp [List.find?, mkNic]

theorem attach_nics_cons (check : Bool) (env : SystemEnv) (cn : Option String)
    (st : AttachState) (spec : NicParam) (specs : List NicParam) :
    attach_nics check env cn st (spec :: specs) =
      match attachOne check env cn st spec with
      | .ok st1 => attach_nics check env cn st1 specs
      | .error e => .error e := by
  unfold attach_nics
  rw [List.foldlM_cons]
  cases attachOne check env cn st spec <;> rfl

theorem attach_nics_grow {check : Bool} {env : SystemEnv} {cn : Option String}
    {st : AttachState} {specs : List NicParam} {st' : AttachState}
    (h : attach_nics check env cn st specs = .ok st') : ∃ l, st'.nics = st.nics ++ l := by
  induction specs generalizing st with
  | nil => exact ⟨[], by simp [← Except.ok.inj h]⟩
  | cons spec specs ih =>
      rw [attach_nics_cons] at h
      cases h1 : attachOne check env cn st spec with
      | error e => rw [h1] at h; cases h
      | ok st1 =>
          rw [h1] at h
          obtain ⟨l1, hl1⟩ := attachOne_nics_grow h1
          obtain ⟨l2, hl2⟩ := ih h
          exact ⟨l1 ++ l2, by rw [hl2, hl1, List.append_assoc]⟩

theorem attach_nics_all_exist {env : SystemEnv} {cn : Option String}
    {st : AttachState} {specs : List NicParam} {st' : AttachState}
    (h : attach_nics false env cn st specs = .ok st') :
    ∀ spec ∈ specs, nicExists st'.nics spec = true := by
  induction specs generalizing st with
  | nil => intro spec hs; cases hs
  | cons a specs ih =>
      rw [attach_nics_cons] at h
      cases h1 : attachOne false env cn st a with
      | error e => rw [h1] at h; cases h
      | ok st1 =>
          rw [h1] at h
          intro spec hs
          rcases List.mem_cons.mp hs with rfl | hmem
          · obtain ⟨l, hl⟩ := attach_nics_grow h
            rw [hl]
            exact nicExists_append l (attachOne_makes_exist h1)
          · exact ih h spec hmem

theorem attach_nics_skips_existing {check : Bool} {env : SystemEnv} {cn : Option String}
    {st : AttachState} {specs : List NicParam}
    (h : ∀ spec ∈ specs, nicExists st.nics spec = true) :
    attach_nics check env cn st specs = .ok st := by
  induction specs with
  | nil => rfl
  | cons a specs ih =>
      rw [attach_nics_cons]
      have ha : attachOne check env cn st a = .ok st := by
        unfold attachOne
        rw [if_pos (h a (List.mem_cons_self a specs))]
      rw [ha]
      exact ih (fun spec hs => h spec (List.mem_cons_of_mem a hs))

/-- C5: NIC attachment is idempotent per NIC name.  (i) A declared NIC
whose name already exists on the VM is skipped: no mutation, no error, the
changed flag untouched.  (ii) In check (dry-run) mode a missing NIC issues
no creation request but still sets `changed`.  (iii) A missing NIC in
normal mode issues a creation request carrying name, interface, the
optionally resolved profile id and optional MAC, and sets `changed`.
(iv) After a successful pass, a second pass over the same declared NICs
changes nothing and reports `changed = false` — no duplicate is
created. -/
theorem nic_attacher_idempotent :
    (∀ (check : Bool) (env : SystemEnv) (cn : Option String) (st : AttachState)
        (spec : NicParam), nicExists st.nics spec = true →
       attachOne check env cn st spec = .ok st) ∧
    (∀ (env : SystemEnv) (cn : Option String) (st : AttachState) (spec : NicParam),
       nicExists st.nics spec = false →
       attachOne true env cn st spec = .ok ⟨st.nics, true⟩) ∧
    (∀ (env : SystemEnv) (cn : Option String) (st : AttachState) (spec : NicParam)
        (pid : Option String), nicExists st.nics spec = false →
       resolveProfileFor env cn spec = .ok pid →
       attachOne false env cn st spec = .ok ⟨st.nics ++ [mkNic spec pid], true⟩) ∧
    (∀ (env : SystemEnv) (cn : Option String) (nics0 : List Nic)
        (specs : List NicParam) (st1 : AttachState),
       attach_nics false env cn ⟨nics0, false⟩ specs = .ok st1 →
       attach_nics false env cn ⟨st1.nics, false⟩ specs = .ok ⟨st1.nics, false⟩) := by
  refine ⟨?_, ?_, ?_, ?_⟩
  · exact attachOne_found
  · exact attachOne_check_mode
  · exact attachOne_add
  · intro env cn nics0 specs st1 h
    have hall := attach_nics_all_exist h
    exact attach_nics_skips_existing hall

/-- Witness for C5: one declared NIC, first pass attaches it
(`changed = true`), second pass over the same declaration is a no-op with
`changed = false`. -/
theorem nic_attacher_idempotent_witness :
    attach_nics false ⟨[⟨"id1", some "p1", "n1"⟩], [⟨some "cl", ["n1"]⟩]⟩ (some "cl")
        ⟨[mkNic { name := some "eth0", profile_name := some "p1"
                , mac_address := some "aa:bb:cc:dd:ee:ff" } (some "id1")], false⟩
        [{ name := some "eth0", profile_name := some "p1"
         , mac_address := some "aa:bb:cc:dd:ee:ff" }] =
      .ok ⟨[mkNic { name := some "eth0", profile_name := some "p1"
                  , mac_address := some "aa:bb:cc:dd:ee:ff" } (some "id1")], false⟩ :=
  nic_attacher_idempotent.2.2.2 ⟨[⟨"id1", some "p1", "n1"⟩], [⟨some "cl", ["n1"]⟩]⟩
    (some "cl") []
    [{ name := some "eth0", profile_name := some "p1"
     , mac_address := some "aa:bb:cc:dd:ee:ff" }]
    ⟨[mkNic { name := some "eth0", profile_name := some "p1"
            , mac_address := some "aa:bb:cc:dd:ee:ff" } (some "id1")], true⟩
    (by rfl)

theorem except_bind_ok {ε α β : Type} (a : α) (k : α → Except ε β) :
    (Except.ok a >>= k) = k a := rfl

theorem except_bind_error {ε α β : Type} (e : ε) (k : α → Except ε β) :
    ((Except.error e : Except ε α) >>= k) = .error e := rfl

theorem wait_eq_ok_iff (trace : Nat → PollVm) (cond : PollVm → Bool) (tmo : Nat) :
    wait trace cond tmo = .ok () ↔
      (List.range (tmo + 1)).any (fun t => cond (trace t)) = true := by
  unfold wait
  split
  · next hany => simp [hany]
  · next hany =>
      constructor
      · intro h
        cases h
      · intro h
        exact absurd h hany

theorem wait_eq_timeout_iff (trace : Nat → PollVm) (cond : PollVm → Bool) (tmo : Nat) :
    wait trace cond tmo = .error OvirtError.timeoutError ↔
      ¬((List.range (tmo + 1)).any (fun t => cond (trace t)) = true) := by
  unfold wait
  split
  · next hany =>
      constructor
      · intro h
        cases h
      · intro h
        exact absurd hany h
  · next hany =>
      exact ⟨fun _ => hany, fun _ => rfl⟩

theorem wait_ok_or_timeout (trace : Nat → PollVm) (cond : PollVm → Bool) (tmo : Nat) :
    wait trace cond tmo = .ok () ∨ wait trace cond tmo = .error OvirtError.timeoutError := by
  unfold wait
  split
  · exact Or.inl rfl
  · exact Or.inr rfl

theorem foldWait_ok_iff (f : PollVm → Except OvirtError Unit) (ms : List PollVm) :
    (ms.foldlM (fun _ v => f v) () = .ok ()) ↔ ∀ v ∈ ms, f v = .ok () := by
  induction ms with
  | nil =>
      exact ⟨fun _ v hv => absurd hv (List.not_mem_nil v), fun _ => rfl⟩
  | cons a ms ih =>
      rw [List.foldlM_cons]
      cases hfa : f a with
      | ok u =>
          cases u
          rw [except_bind_ok]
          constructor
          · intro h v hv
            rcases List.mem_cons.mp hv with rfl | hm
            · exact hfa
            · exact ih.mp h v hm
          · intro h
            exact ih.mpr (fun v hv => h v (List.mem_cons_of_mem a hv))
      | error e =>
          rw [except_bind_error]
          constructor
          · intro h
            cases h
          · intro h
            have := h a (List.mem_cons_self a ms)
            rw [hfa] at this
            cases this

theorem foldWait_timeout_iff (f : PollVm → Except OvirtError Unit) (ms : List PollVm)
    (hf : ∀ v, f v = .ok () ∨ f v = .error OvirtError.timeoutError) :
    (ms.foldlM (fun _ v => f v) () = .error OvirtError.timeoutError) ↔
      ∃ v ∈ ms, f v = .error OvirtError.timeoutError := by
  induction ms with
  | nil =>
      constructor
      · intro h
        cases h
      · rintro ⟨v, hv, _⟩
        exact absurd hv (List.not_mem_nil v)
  | cons a ms ih =>
      rw [List.foldlM_cons]
      rcases hf a with hfa | hfa
      · rw [hfa, except_bind_ok, ih]
        constructor
        · rintro ⟨v, hv, he⟩
          exact ⟨v, List.mem_cons_of_mem a hv, he⟩
        · rintro ⟨v, hv, he⟩
          rcases List.mem_cons.mp hv with rfl | hm
          · rw [hfa] at he
            cases he
          · exact ⟨v, hm, he⟩
      · rw [hfa, except_bind_error]
        constructor
        · intro _
          exact ⟨a, List.mem_cons_self a ms, hfa⟩
        · intro _
          rfl

theorem foldWait_congr (f g : PollVm → Except OvirtError Unit) (ms : List PollVm)
    (h : ∀ v ∈ ms, f v = g v) :
    ms.foldlM (fun _ v => f v) () = ms.foldlM (fun _ v => g v) () := by
  induction ms with
  | nil => rfl
  | cons a ms ih =>
      rw [List.foldlM_cons, List.foldlM_cons, h a (List.mem_cons_self a ms)]
      cases g a with
      | ok u =>
          cases u
          rw [except_bind_ok, except_bind_ok]
          exact ih (fun v hv => h v (List.mem_cons_of_mem a hv))
      | error e => rfl

/-- C8: convergence polling runs only under `state = present` with the
`wait` flag set; it is scoped to the VMs found as pool members at that
moment (the outcome depends only on their traces); each member is waited
on until its status is DOWN or UP within the timeout, failing with the
timeout error on expiry; the phase succeeds iff every member converges
and fails with the timeout error iff some member does not. -/
theorem convergence_polling_contract :
    (∀ (state : String) (waitFlag : Bool) (vms : List PollVm) (name : String)
        (trace : String → Nat → PollVm) (tmo : Nat),
       ¬(state = "present" ∧ waitFlag = true) →
       wait_phase state waitFlag vms name trace tmo = .ok ()) ∧
    (∀ (vms : List PollVm) (name : String) (t t' : String → Nat → PollVm) (tmo : Nat),
       (∀ v ∈ pool_members vms name, t v.id = t' v.id) →
       wait_phase "present" true vms name t tmo = wait_phase "present" true vms name t' tmo) ∧
    (∀ (trace : Nat → PollVm) (tmo : Nat),
       (wait trace pool_vm_ready tmo = .ok () ↔
         ∃ s ≤ tmo, (trace s).status = VmStatus.down ∨ (trace s).status = VmStatus.up) ∧
       (wait trace pool_vm_ready tmo = .error OvirtError.timeoutError ↔
         ¬∃ s ≤ tmo, (trace s).status = VmStatus.down ∨ (trace s).status = VmStatus.up)) ∧
    (∀ (vms : List PollVm) (name : String) (trace : String → Nat → PollVm) (tmo : Nat),
       (wait_phase "present" true vms name trace tmo = .ok () ↔
         ∀ v ∈ pool_members vms name, wait (trace v.id) pool_vm_ready tmo = .ok ()) ∧
       (wait_phase "present" true vms name trace tmo = .error OvirtError.timeoutError ↔
         ∃ v ∈ pool_members vms name,
           wait (trace v.id) pool_vm_ready tmo = .error OvirtError.timeoutError)) := by
  have hready : ∀ (trace : Nat → PollVm) (tmo : Nat),
      ((List.range (tmo + 1)).any (fun t => pool_vm_ready (trace t)) = true) ↔
        ∃ s ≤ tmo, (trace s).status = VmStatus.down ∨ (trace s).status = VmStatus.up := by
    intro trace tmo
    rw [List.any_eq_true]
    constructor
    · rintro ⟨s, hs, hp⟩
      refine ⟨s, Nat.lt_succ_iff.mp (List.mem_range.mp hs), ?_⟩
      simpa [pool_vm_ready] using hp
    · rintro ⟨s, hs, hp⟩
      exact ⟨s, List.mem_range.mpr (Nat.lt_succ_iff.mpr hs),
        by simpa [pool_vm_ready] using hp⟩
  refine ⟨?_, ?_, ?_, ?_⟩
  · intro state wf vms name trace tmo h
    by_cases hs : state = "present"
    · subst hs
      cases wf with
      | true => exact absurd ⟨rfl, rfl⟩ h
      | false => simp [wait_phase]
    · simp [wait_phase, hs]
  · intro vms name t t' tmo hagree
    simp only [wait_phase, if_pos rfl]
    exact foldWait_congr _ _ _ (fun v hv => by rw [hagree v hv])
  · intro trace tmo
    constructor
    · rw [wait_eq_ok_iff]
      exact hready trace tmo
    · rw [wait_eq_timeout_iff]
      exact not_congr (hready trace tmo)
  · intro vms name trace tmo
    constructor
    · simp only [wait_phase, if_pos rfl]
      exact foldWait_ok_iff _ _
    · simp only [wait_phase, if_pos rfl]
      exact foldWait_timeout_iff _ _ (fun v => wait_ok_or_timeout _ _ _)

/-- Witness for C8: with the `wait` flag cleared the phase polls nothing
and succeeds even though the member VM's trace never reaches DOWN or
UP. -/
theorem convergence_polling_contract_witness :
    wait_phase "present" false [⟨"v1", VmStatus.image_locked, some "pool1"⟩] "pool1"
      (fun _ _ => ⟨"v1", VmStatus.image_locked, some "pool1"⟩) 5 = .ok () :=
  convergence_polling_contract.1 "present" false
    [⟨"v1", VmStatus.image_locked, some "pool1"⟩] "pool1"
    (fun _ _ => ⟨"v1", VmStatus.image_locked, some "pool1"⟩) 5 (by simp)

end OvirtVmPool
